import Mathlib

/-
  Verification of the tradeverse decision-and-safety core.

  Shallow embedding of the signal-fusion and execution-gating engine:
  - src/backend/risk_engine.py        (RiskEngine)
  - src/backend/monitoring.py         (HeartbeatMonitor)
  - src/backend/strategy_optimizer.py (StrategyOptimizer)
  - src/backend/meta_labeler.py       (MetaLabeler)
  - src/backend/gex_engine.py         (GEXEngine.get_safety_gate)
  - src/backend/agent_layer.py        (IntelligenceLayer._aggregator)

  Python floats are embedded as rationals (all constants in the source are
  exact decimals); the meta-labeler sigmoid uses Real.exp over the reals.
  Python dicts read through .get with a default are embedded as structures
  with Option fields plus the corresponding getD; a dict that the source
  tests for truthiness before use is embedded as an Option of a structure.
-/

namespace Tradeverse

/- ### RiskEngine, src/backend/risk_engine.py -/

structure RiskEngine where
  daily_loss_limit : ℚ
  max_position_size : ℚ
  current_daily_loss : ℚ
  circuit_breaker_active : Bool
deriving Repr, DecidableEq

/-- Constructor defaults: daily_loss_limit 5000.0, max_position_size 100000.0,
current_daily_loss 0.0, circuit_breaker_active False. -/
def RiskEngine.init (daily_loss_limit : ℚ) (max_position_size : ℚ) : RiskEngine :=
  { daily_loss_limit := daily_loss_limit
    max_position_size := max_position_size
    current_daily_loss := 0
    circuit_breaker_active := false }

/-- order_details dict: only the keys quantity and price are read, via .get
with default 0. -/
structure OrderDetails where
  quantity : Option ℚ
  price : Option ℚ
deriving Repr, DecidableEq

/-- RiskEngine.validate_order, risk_engine.py lines 14-28.  Returns the pair
(allowed, reason). -/
def RiskEngine.validate_order (e : RiskEngine) (order_details : OrderDetails) :
    Bool × String :=
  if e.circuit_breaker_active then
    (false, "Circuit breaker is ACTIVE. Trading halted.")
  else if e.current_daily_loss ≥ e.daily_loss_limit then
    (false, "Daily loss limit reached.")
  else
    let order_value := order_details.quantity.getD 0 * order_details.price.getD 0
    if order_value > e.max_position_size then
      (false, "Order value exceeds max position size.")
    else
      (true, "Safe to proceed.")

/-- RiskEngine.update_pnl, risk_engine.py lines 30-36: accumulates only losses
and trips the breaker once the accumulated loss reaches the limit. -/
def RiskEngine.update_pnl (e : RiskEngine) (realized_pnl : ℚ) : RiskEngine :=
  let loss := e.current_daily_loss + (if realized_pnl < 0 then -realized_pnl else 0)
  { e with
    current_daily_loss := loss
    circuit_breaker_active :=
      if loss ≥ e.daily_loss_limit then true else e.circuit_breaker_active }

/-- RiskEngine.trigger_circuit_breaker, risk_engine.py lines 38-43 (state
effect only; the returned status dict is not modelled). -/
def RiskEngine.trigger_circuit_breaker (e : RiskEngine) (active : Bool) : RiskEngine :=
  { e with circuit_breaker_active := active }

/- ### HeartbeatMonitor, src/backend/monitoring.py -/

/-- One user-settings record (the JSON value stored under user:<id>:settings).
Only the TRADING_MODE field is read or written by the watchdog; the other
JSON fields are kept opaque in the rest field and survive the rewrite. -/
structure UserSettings where
  trading_mode : String
  rest : String
deriving Repr, DecidableEq

/-- The slice of the shared key-value store the watchdog touches:
heartbeat keys, the set:active_auto_users set (as its member list) and the
settings keys. -/
structure WatchdogState where
  heartbeats : String → Option Int
  active_auto_users : List String
  settings : String → Option UserSettings

/-- HeartbeatMonitor.TIMEOUT_SECONDS = 30. -/
def TIMEOUT_SECONDS : Int := 30

/-- The staleness test of check_watchdog, monitoring.py line 45:
not last_beat or (now - int(last_beat) > TIMEOUT_SECONDS). -/
def heartbeat_stale (st : WatchdogState) (now : Int) (user_id : String) : Bool :=
  match st.heartbeats user_id with
  | none => true
  | some last_beat => now - last_beat > TIMEOUT_SECONDS

/-- HeartbeatMonitor._emergency_stop, monitoring.py lines 49-63: only when a
settings record exists and its TRADING_MODE is AUTO does it rewrite the mode
to MANUAL and remove the user from the active set; otherwise nothing happens. -/
def emergency_stop (st : WatchdogState) (user_id : String) : WatchdogState :=
  match st.settings user_id with
  | some s =>
    if s.trading_mode = "AUTO" then
      { st with
        settings := fun v => if v = user_id
          then some { s with trading_mode := "MANUAL" } else st.settings v
        active_auto_users := st.active_auto_users.filter (fun v => v ≠ user_id) }
    else st
  | none => st

/-- The iteration of check_watchdog over the smembers snapshot. -/
def check_watchdog_go (now : Int) : WatchdogState → List String → WatchdogState
  | st, [] => st
  | st, u :: rest =>
    check_watchdog_go now (if heartbeat_stale st now u then emergency_stop st u else st) rest

/-- HeartbeatMonitor.check_watchdog, monitoring.py lines 22-47. -/
def check_watchdog (st : WatchdogState) (now : Int) : WatchdogState :=
  check_watchdog_go now st st.active_auto_users

/- ### StrategyOptimizer, src/backend/strategy_optimizer.py -/

/-- The gex_data dict as read by calculate_targets, calculate_convergence_score
and MetaLabeler.vet_signal.  The source reads the keys only through .get with
defaults call_wall 0, put_wall 0, pcr 1.0, so a dict missing a key behaves
exactly like one holding that default value; an absent or empty (falsy) dict
is Option.none one level up. -/
structure GexData where
  call_wall : ℚ
  put_wall : ℚ
  pcr : ℚ
deriving Repr, DecidableEq

/-- Pivot-levels dict: each key may be missing; a present value of 0 is falsy
in the source and is likewise skipped. -/
structure PivotLevels where
  R1 : Option ℚ
  R2 : Option ℚ
  S1 : Option ℚ
  S2 : Option ℚ
deriving Repr, DecidableEq

/-- Python sorted(list(set(xs)), reverse=rev): duplicates removed, then the
distinct values in ascending order, reversed (= descending) when rev. -/
def py_sorted_dedup (xs : List ℚ) (rev : Bool) : List ℚ :=
  let s := List.insertionSort (· ≤ ·) xs.dedup
  if rev then s.reverse else s

/-- StrategyOptimizer.calculate_tsl, strategy_optimizer.py lines 11-25. -/
def calculate_tsl (entry_price current_price : ℚ) (side : String) (atr : ℚ)
    (regime : String) : ℚ :=
  let multiplier : ℚ := if regime = "VOLATILE" then 2.0 else 1.5
  let risk_dist := atr * multiplier
  if side = "BUY" then
    max (entry_price - risk_dist) (current_price - risk_dist)
  else
    min (entry_price + risk_dist) (current_price + risk_dist)

/-- StrategyOptimizer.calculate_targets, strategy_optimizer.py lines 27-64.
Base ATR multiples by regime, then pivot levels (R2/S2 only when trending),
then one extra target 10 short of an adverse GEX wall, then
sorted(list(set(targets)), reverse=(side == SELL)). -/
def calculate_targets (price : ℚ) (side : String) (atr : ℚ)
    (pivot_levels : Option PivotLevels) (regime : String)
    (gex_data : Option GexData) : List ℚ :=
  let base : List ℚ :=
    if regime = "TRENDING_INTRADAY" then
      [(if side = "BUY" then price + atr * 3.0 else price - atr * 3.0),
       (if side = "BUY" then price + atr * 5.0 else price - atr * 5.0)]
    else
      [(if side = "BUY" then price + atr * 1.5 else price - atr * 1.5),
       (if side = "BUY" then price + atr * 2.5 else price - atr * 2.5)]
  let with_pivots : List ℚ := base ++
    (match pivot_levels with
     | none => []
     | some p =>
       if side = "BUY" then
         (match p.R1 with
          | some r1 => if r1 ≠ 0 then [r1] else []
          | none => []) ++
         (if regime = "TRENDING_INTRADAY" then
            match p.R2 with
            | some r2 => if r2 ≠ 0 then [r2] else []
            | none => []
          else [])
       else
         (match p.S1 with
          | some s1 => if s1 ≠ 0 then [s1] else []
          | none => []) ++
         (if regime = "TRENDING_INTRADAY" then
            match p.S2 with
            | some s2 => if s2 ≠ 0 then [s2] else []
            | none => []
          else []))
  let with_gex : List ℚ := with_pivots ++
    (match gex_data with
     | none => []
     | some g =>
       if side = "BUY" then
         if g.call_wall > price then [g.call_wall - 10] else []
       else
         if 0 < g.put_wall ∧ g.put_wall < price then [g.put_wall + 10] else [])
  py_sorted_dedup with_gex (side = "SELL")

/- ### ConvergenceScorer, strategy_optimizer.py lines 66-117 -/

/-- The signals dict: every key is read via .get (tech_pred, tft_pred and
rl_action with default None; sentiment_score with default 0; pcr with
default 1.0). -/
structure Signals where
  tech_pred : Option String
  tft_pred : Option String
  rl_action : Option Int
  sentiment_score : Option ℚ
  pcr : Option ℚ
deriving Repr, DecidableEq

/-- The component-score breakdown (details dict), keyed technical, tft, rl,
sentiment, options. -/
structure ConvDetails where
  technical : ℚ
  tft : ℚ
  rl : ℚ
  sentiment : ℚ
  options : ℚ
deriving Repr, DecidableEq

def weights_technical : ℚ := 0.40
def weights_tft : ℚ := 0.20
def weights_rl : ℚ := 0.15
def weights_sentiment : ℚ := 0.15
def weights_options : ℚ := 0.10

/-- Technical factor: score increment and details entry. -/
def conv_technical (tech_pred : Option String) : ℚ × ℚ :=
  if tech_pred = some "UP" then (weights_technical, 1)
  else if tech_pred = some "DOWN" then (-weights_technical, -1)
  else (0, 0)

/-- Temporal-context factor. -/
def conv_tft (tft_pred : Option String) : ℚ × ℚ :=
  if tft_pred = some "UP" then (weights_tft, 1)
  else if tft_pred = some "DOWN" then (-weights_tft, -1)
  else (0, 0)

/-- Execution-timing factor: action 1 buys, action 2 sells. -/
def conv_rl (rl_action : Option Int) : ℚ × ℚ :=
  if rl_action = some 1 then (weights_rl, 1)
  else if rl_action = some 2 then (-weights_rl, -1)
  else (0, 0)

/-- Option-positioning factor on the put-call ratio. -/
def conv_options (pcr : ℚ) : ℚ × ℚ :=
  if pcr < 0.85 then (weights_options, 1)
  else if pcr > 1.15 then (-weights_options, -1)
  else (0, 0)

/-- StrategyOptimizer.calculate_convergence_score, strategy_optimizer.py
lines 66-117: returns (aggregate score, component breakdown). -/
def calculate_convergence_score (signals : Signals) : ℚ × ConvDetails :=
  let t := conv_technical signals.tech_pred
  let f := conv_tft signals.tft_pred
  let r := conv_rl signals.rl_action
  let sent_val := signals.sentiment_score.getD 0
  let o := conv_options (signals.pcr.getD 1.0)
  (t.1 + f.1 + r.1 + sent_val * weights_sentiment + o.1,
   { technical := t.2, tft := f.2, rl := r.2, sentiment := sent_val, options := o.2 })

/- ### MetaLabeler, src/backend/meta_labeler.py -/

/-- The tech_ctx dict as read by MetaLabeler.vet_signal and the aggregator:
regime (.get default NOMINAL), causal_strength (.get default 0.5), ltp (.get
default 0), atr (.get default ltp * 0.01) and the component_alpha sub-dict,
of which only the key score (.get default 0) is ever read, so it is embedded
directly as the optional score. -/
structure TechCtx where
  regime : Option String
  causal_strength : Option ℚ
  ltp : Option ℚ
  atr : Option ℚ
  component_alpha : Option ℚ
deriving Repr, DecidableEq

/-- The pre-sigmoid score of MetaLabeler.vet_signal, meta_labeler.py lines
33-77: base confidence/100, plus the regime-specific adjustment, plus the GEX
proximity penalty. -/
def vet_score (signal : String) (confidence : ℚ) (tech_ctx : TechCtx)
    (component_alpha : Option ℚ) (gex_data : Option GexData) : ℚ :=
  let regime := tech_ctx.regime.getD "NOMINAL"
  let causal_strength := tech_ctx.causal_strength.getD 0.5
  let comp_score := component_alpha.getD 0
  let regime_adj : ℚ :=
    if regime = "TRENDING_INTRADAY" then
      (if (signal = "BUY" ∧ comp_score > 0.3) ∨ (signal = "SELL" ∧ comp_score < -0.3)
        then 0.25 else 0)
      + (if causal_strength > 0.7 then 0.20
         else if causal_strength < 0.3 then -0.15 else 0)
    else if regime = "RANGE_BOUND" ∨ regime = "LUNCH_LULL" then
      (if |comp_score| > 0.7 then -0.20 else 0)
      + (let pcr := (gex_data.map GexData.pcr).getD 1.0
         if (signal = "BUY" ∧ pcr > 1.2) ∨ (signal = "SELL" ∧ pcr < 0.8)
           then 0.15 else 0)
    else if regime = "OPENING_VOLATILITY" then
      (if |comp_score| < 0.5 then -0.10 else 0.10)
    else 0
  let ltp := tech_ctx.ltp.getD 0
  let gex_adj : ℚ :=
    if ltp > 0 then
      let call_wall := (gex_data.map GexData.call_wall).getD 0
      let put_wall := (gex_data.map GexData.put_wall).getD 0
      if signal = "BUY" ∧ 0 < call_wall - ltp ∧ call_wall - ltp < 40 then -0.30
      else if signal = "SELL" ∧ 0 < ltp - put_wall ∧ ltp - put_wall < 40 then -0.30
      else 0
    else 0
  confidence / 100 + regime_adj + gex_adj

/-- The sigmoid 1 / (1 + exp(-x)) used at meta_labeler.py line 81. -/
noncomputable def logistic (x : ℝ) : ℝ := 1 / (1 + Real.exp (-x))

/-- MetaLabeler.vet_signal, meta_labeler.py lines 23-85: 0.0 for a HOLD
signal, otherwise logistic(12 * (score - 0.55)). -/
noncomputable def vet_signal_prob (signal : String) (confidence : ℚ)
    (tech_ctx : TechCtx) (component_alpha : Option ℚ)
    (gex_data : Option GexData) : ℝ :=
  if signal = "HOLD" then 0
  else logistic (12 * ((vet_score signal confidence tech_ctx component_alpha gex_data : ℝ)
    - 0.55))

/- ### GEXEngine.get_safety_gate, src/backend/gex_engine.py lines 83-99 -/

/-- The last_analysis dict entries the gate indexes directly. -/
structure GexAnalysis where
  call_wall : ℚ
  put_wall : ℚ
deriving Repr, DecidableEq

/-- GEXEngine.get_safety_gate: fail-open when last_analysis is empty, deny a
BUY above call_wall - 30, deny a SELL below put_wall + 30, else allow.
Returns (allow, reason). -/
def get_safety_gate (last_analysis : Option GexAnalysis) (signal : String)
    (spot_price : ℚ) : Bool × String :=
  match last_analysis with
  | none => (true, "No GEX data")
  | some a =>
    if signal = "BUY" ∧ spot_price > a.call_wall - 30 then
      (false, "APPROACHING HEAVY CALL WALL")
    else if signal = "SELL" ∧ spot_price < a.put_wall + 30 then
      (false, "APPROACHING HEAVY PUT WALL")
    else
      (true, "Path clear")

/- ### IntelligenceLayer._aggregator, src/backend/agent_layer.py lines 446-569 -/

/-- The slice of AgentState the aggregator reads.  Fields the source indexes
directly (state[...]) are total; fields read through state.get(..., default)
are Option. -/
structure AggState where
  symbol : String
  ai_prediction : String
  risk_approval : Bool
  technical_context : TechCtx
  greedy : Option Bool
  regime : Option String
  tft_prediction : Option String
  rl_action : Option Int
  sentiment_score : Option ℚ
  pcr : Option ℚ
  confidence : Option ℚ
  gex_data : Option GexData

/-- The sig_data dict the aggregator feeds to calculate_convergence_score,
agent_layer.py lines 462-468. -/
def agg_signals (state : AggState) : Signals :=
  { tech_pred := some state.ai_prediction
    tft_pred := some (state.tft_prediction.getD "NEUTRAL")
    rl_action := some (state.rl_action.getD 0)
    sentiment_score := some (state.sentiment_score.getD 0)
    pcr := some (state.pcr.getD 1.0) }

/-- The required convergence threshold, agent_layer.py lines 476-485:
0.3 for NOMINAL, RANGE_BOUND, TRENDING_INTRADAY, POWER_HOUR_TREND and
LUNCH_LULL; 0.5 for VOLATILE and OPENING_VOLATILITY; 0.7 otherwise; 0.1
whenever greedy. -/
def req_score_of (regime : String) (greedy : Bool) : ℚ :=
  let base : ℚ :=
    if regime = "NOMINAL" ∨ regime = "RANGE_BOUND" ∨ regime = "TRENDING_INTRADAY"
        ∨ regime = "POWER_HOUR_TREND" ∨ regime = "LUNCH_LULL" then 0.3
    else if regime = "VOLATILE" ∨ regime = "OPENING_VOLATILITY" then 0.5
    else 0.7
  if greedy then 0.1 else base

/-- Python round: to the nearest integer, ties to the even integer. -/
def py_round (q : ℚ) : Int :=
  let f := ⌊q⌋
  let r := q - f
  if r < 1/2 then f
  else if 1/2 < r then f + 1
  else if f % 2 = 0 then f else f + 1

/-- The exit_plan dict built at agent_layer.py lines 542-546. -/
structure ExitPlan where
  initial_sl : ℚ
  trailing_sl_active : Bool
  targets : List ℚ

/-- The trade_recommendation dict, agent_layer.py lines 561-568.  An empty
exit_plan dict is Option.none.  Numeric string interpolation inside the
reasoning text is elided. -/
structure TradeRecommendation where
  instrument : String
  action : String
  strike : Int
  option_type : String
  reasoning : String
  exit_plan : Option ExitPlan

/-- The aggregator's returned partial state update, agent_layer.py
lines 557-569. -/
structure AggResult where
  final_signal : String
  confidence : ℚ
  model_scores : ConvDetails
  trade_recommendation : TradeRecommendation

/-- The self.meta_labeler collaborator as the aggregator calls it
(get_vetted_signal at agent_layer.py lines 501-508): any function of the raw
signal, confidence, tech context, component alpha, gex data and threshold
returning the vetted signal and a success probability of some payload type. -/
def MetaFn (π : Type) : Type :=
  String → ℚ → TechCtx → Option ℚ → Option GexData → ℚ → String × π

/-- Lines 450-528 of the aggregator: convergence scoring, the regime
threshold plus risk gate, meta-label vetting and the GEX safety gate,
producing (final_signal, confidence, reasoning). -/
def aggregator_decision {π : Type} (meta_labeler : Option (MetaFn π))
    (gex_engine : Option (Option GexAnalysis)) (state : AggState) :
    String × ℚ × String :=
  let greedy := state.greedy.getD false
  let risk_safe := state.risk_approval
  let convergence_score := (calculate_convergence_score (agg_signals state)).1
  let req_score := req_score_of (state.regime.getD "NOMINAL") greedy
  if |convergence_score| ≥ req_score ∧ risk_safe = true then
    let current_confidence := state.confidence.getD 0
    let tech_ctx := state.technical_context
    let raw_signal := if convergence_score > 0 then "BUY" else "SELL"
    let vetted_signal :=
      match meta_labeler, greedy with
      | some ml, false =>
        (ml raw_signal current_confidence tech_ctx tech_ctx.component_alpha
          state.gex_data 0.65).1
      | _, _ => raw_signal
    let gex_gate :=
      match gex_engine with
      | some last_analysis =>
        get_safety_gate last_analysis vetted_signal (tech_ctx.ltp.getD 0)
      | none => (true, "Path clear")
    if vetted_signal ≠ "HOLD" ∧ gex_gate.1 = true then
      (vetted_signal, current_confidence, "Vetted Alpha")
    else
      ("HOLD", current_confidence,
        if vetted_signal = "HOLD" then "Signal Refused (Meta-Labeler): below threshold."
        else if gex_gate.1 = false then "GEX Block: " ++ gex_gate.2
        else "Signal Gated: Convergence/Risk check failed.")
  else
    ("HOLD", state.confidence.getD 0, "")

/-- IntelligenceLayer._aggregator, agent_layer.py lines 446-569: the decision
above, then the exit plan (only for a non-HOLD signal), strike selection and
the assembled trade recommendation. -/
def aggregator {π : Type} (meta_labeler : Option (MetaFn π))
    (gex_engine : Option (Option GexAnalysis)) (state : AggState) : AggResult :=
  let d := aggregator_decision meta_labeler gex_engine state
  let final_signal := d.1
  let regime := state.regime.getD "NOMINAL"
  let ltp := state.technical_context.ltp.getD 0
  let atr := state.technical_context.atr.getD (ltp * 0.01)
  let exit_plan : Option ExitPlan :=
    if final_signal ≠ "HOLD" then
      some { initial_sl := calculate_tsl ltp ltp final_signal atr regime
             trailing_sl_active := true
             targets := calculate_targets ltp final_signal atr none regime state.gex_data }
    else none
  let strike := py_round (ltp / 100) * 100
  let option_type :=
    if final_signal = "BUY" then "CE"
    else if final_signal = "SELL" then "PE" else "N/A"
  let instrument :=
    if final_signal ≠ "HOLD" then
      (state.symbol.replace "^" "") ++ " " ++ toString strike ++ " " ++ option_type
    else "WAITING FOR SIGNAL"
  let reasoning := d.2.2 ++ " | Regime: " ++ regime
  let reasoning := if state.risk_approval = false then "Trade Blocked by Risk Engine."
    else reasoning
  { final_signal := final_signal
    confidence := d.2.1
    model_scores := (calculate_convergence_score (agg_signals state)).2
    trade_recommendation :=
      { instrument := instrument
        action := final_signal
        strike := if final_signal ≠ "HOLD" then strike else 0
        option_type := option_type
        reasoning := reasoning
        exit_plan := exit_plan } }

/- ### Helper lemmas -/

lemma validate_order_loss_limit (e : RiskEngine) (o : OrderDetails)
    (h : e.current_daily_loss ≥ e.daily_loss_limit) :
    (e.validate_order o).1 = false := by
  simp only [RiskEngine.validate_order]
  split_ifs <;> simp_all

lemma update_pnl_neg_limit (L M : ℚ) :
    ((RiskEngine.init L M).update_pnl (-L)).daily_loss_limit = L
    ∧ ((RiskEngine.init L M).update_pnl (-L)).current_daily_loss ≥ L := by
  constructor
  · rfl
  · show ((RiskEngine.init L M).update_pnl (-L)).current_daily_loss ≥ L
    simp only [RiskEngine.init, RiskEngine.update_pnl]
    rcases lt_or_le (-L) 0 with h | h
    · rw [if_pos h]; linarith
    · rw [if_neg (not_lt.mpr h)]; linarith

lemma conv_technical_eq (p : Option String) :
    (conv_technical p).1 = weights_technical * (conv_technical p).2 := by
  unfold conv_technical
  split_ifs <;> simp

lemma conv_tft_eq (p : Option String) :
    (conv_tft p).1 = weights_tft * (conv_tft p).2 := by
  unfold conv_tft
  split_ifs <;> simp

lemma conv_rl_eq (p : Option Int) :
    (conv_rl p).1 = weights_rl * (conv_rl p).2 := by
  unfold conv_rl
  split_ifs <;> simp

lemma conv_options_eq (pcr : ℚ) :
    (conv_options pcr).1 = weights_options * (conv_options pcr).2 := by
  unfold conv_options
  split_ifs <;> simp

lemma conv_technical_abs (p : Option String) : |(conv_technical p).1| ≤ 0.40 := by
  unfold conv_technical
  split_ifs <;> refine abs_le.mpr ⟨by norm_num [weights_technical], by norm_num [weights_technical]⟩

lemma conv_tft_abs (p : Option String) : |(conv_tft p).1| ≤ 0.20 := by
  unfold conv_tft
  split_ifs <;> refine abs_le.mpr ⟨by norm_num [weights_tft], by norm_num [weights_tft]⟩

lemma conv_rl_abs (p : Option Int) : |(conv_rl p).1| ≤ 0.15 := by
  unfold conv_rl
  split_ifs <;> refine abs_le.mpr ⟨by norm_num [weights_rl], by norm_num [weights_rl]⟩

lemma conv_options_abs (pcr : ℚ) : |(conv_options pcr).1| ≤ 0.10 := by
  unfold conv_options
  split_ifs <;> refine abs_le.mpr ⟨by norm_num [weights_options], by norm_num [weights_options]⟩

/-- Tight bound: the convergence score magnitude never exceeds
0.85 + 0.15 times the sentiment magnitude. -/
lemma conv_score_abs_le (s : Signals) :
    |(calculate_convergence_score s).1| ≤ 0.85 + 0.15 * |s.sentiment_score.getD 0| := by
  simp only [calculate_convergence_score]
  have h1 := conv_technical_abs s.tech_pred
  have h2 := conv_tft_abs s.tft_pred
  have h3 := conv_rl_abs s.rl_action
  have h4 := conv_options_abs (s.pcr.getD 1.0)
  set sv := s.sentiment_score.getD 0 with hsv
  have hw : weights_sentiment = 0.15 := rfl
  have h5u : sv * weights_sentiment ≤ 0.15 * |sv| := by
    rw [hw]
    have := le_abs_self sv
    linarith
  have h5l : -(0.15 * |sv|) ≤ sv * weights_sentiment := by
    rw [hw]
    have := neg_abs_le sv
    linarith
  rcases abs_le.mp h1 with ⟨a1, b1⟩
  rcases abs_le.mp h2 with ⟨a2, b2⟩
  rcases abs_le.mp h3 with ⟨a3, b3⟩
  rcases abs_le.mp h4 with ⟨a4, b4⟩
  refine abs_le.mpr ⟨by linarith, by linarith⟩

/- ### Claim C1 -/

/-- C1, counterexample: with daily-loss limit 5000 and zero accumulated loss,
after update_pnl(-5000) and trigger_circuit_breaker(false), a compliant order
(value 10, within max_position_size 100000) is still rejected, because
validate_order independently rejects once current_daily_loss has reached the
limit.  The claim says it would be accepted again. -/
theorem risk_reset_counterexample :
    ((((RiskEngine.init 5000 100000).update_pnl (-5000)).trigger_circuit_breaker
        false).validate_order { quantity := some 1, price := some 10 }).1 = false
    ∧ (1 : ℚ) * 10 ≤ (RiskEngine.init 5000 100000).max_position_size := by
  constructor
  · norm_num [RiskEngine.init, RiskEngine.update_pnl, RiskEngine.trigger_circuit_breaker,
      RiskEngine.validate_order]
  · norm_num [RiskEngine.init]

/-- C1, amended: after update_pnl(-L) from zero accumulated loss every order
is rejected; a subsequent trigger_circuit_breaker(false) clears the breaker
flag but every order is still rejected, because the accumulated daily loss
still meets the limit; the reset restores acceptance of a compliant order
exactly in states whose accumulated loss is below the limit. -/
theorem risk_daily_loss_amended (L M : ℚ) (o : OrderDetails) :
    ((((RiskEngine.init L M).update_pnl (-L)).validate_order o).1 = false)
    ∧ (((((RiskEngine.init L M).update_pnl (-L)).trigger_circuit_breaker
          false).validate_order o).1 = false)
    ∧ (∀ (e : RiskEngine) (o2 : OrderDetails),
        e.current_daily_loss < e.daily_loss_limit →
        o2.quantity.getD 0 * o2.price.getD 0 ≤ e.max_position_size →
        ((e.trigger_circuit_breaker false).validate_order o2).1 = true) := by
  obtain ⟨hlim, hloss⟩ := update_pnl_neg_limit L M
  refine ⟨?_, ?_, ?_⟩
  · exact validate_order_loss_limit _ o (by rw [hlim]; exact hloss)
  · exact validate_order_loss_limit _ o (by
      show ((RiskEngine.init L M).update_pnl (-L)).current_daily_loss ≥
        ((RiskEngine.init L M).update_pnl (-L)).daily_loss_limit
      rw [hlim]; exact hloss)
  · intro e o2 h1 h2
    have hb : (e.trigger_circuit_breaker false).circuit_breaker_active = false := rfl
    have hcur : (e.trigger_circuit_breaker false).current_daily_loss = e.current_daily_loss := rfl
    have hlim2 : (e.trigger_circuit_breaker false).daily_loss_limit = e.daily_loss_limit := rfl
    have hmax : (e.trigger_circuit_breaker false).max_position_size = e.max_position_size := rfl
    simp only [RiskEngine.validate_order, hb, hcur, hlim2, hmax]
    rw [if_neg (by simp), if_neg (not_le.mpr h1), if_neg (not_lt.mpr h2)]

/-- C1, witness for the amended theorem: a concrete state with accumulated
loss 1000 below limit 5000 accepts a compliant order after the reset. -/
theorem risk_daily_loss_amended_witness :
    (((⟨5000, 100000, 1000, true⟩ : RiskEngine).trigger_circuit_breaker
        false).validate_order { quantity := some 1, price := some 10 }).1 = true :=
  (risk_daily_loss_amended 5000 100000 { quantity := some 1, price := some 10 }).2.2
    ⟨5000, 100000, 1000, true⟩ { quantity := some 1, price := some 10 }
    (by norm_num) (by norm_num)

/- ### Claim C4 -/

/-- C4, code bug: the required-score mapping of the aggregator
(agent_layer.py lines 476-485).  The 0.3 tier tests for the literal
POWER_HOUR_TREND, but the regime classifier (regime_engine.py) and the model
engine (model_engine.py) both use the label POWER_HOUR, which therefore falls
to the 0.7 default tier, contradicting the claimed 0.3 for the power-hour
regime.  All other tiers, and the aggressive (greedy) override to 0.1, are as
claimed. -/
theorem regime_threshold_power_hour :
    req_score_of "NOMINAL" false = 0.3 ∧ req_score_of "RANGE_BOUND" false = 0.3
    ∧ req_score_of "TRENDING_INTRADAY" false = 0.3
    ∧ req_score_of "LUNCH_LULL" false = 0.3
    ∧ req_score_of "VOLATILE" false = 0.5
    ∧ req_score_of "OPENING_VOLATILITY" false = 0.5
    ∧ req_score_of "CRASH" false = 0.7
    ∧ req_score_of "POWER_HOUR" false = 0.7
    ∧ req_score_of "POWER_HOUR_TREND" false = 0.3
    ∧ (∀ regime, req_score_of regime true = 0.1) := by
  exact ⟨rfl, rfl, rfl, rfl, rfl, rfl, rfl, rfl, rfl, fun regime => rfl⟩

/- ### Claim C5 -/

/-- C5: the convergence score is the stated weighted sum.  The concrete
signal set (technical UP, temporal UP, execution 1, sentiment 0.8, pcr 0.7)
scores 0.97, hence at least 0.97, and for every signal set the returned
breakdown carries each factor's signed contribution: the score equals the
weighted sum of the breakdown entries with the fixed weights 0.40, 0.20,
0.15, 0.15, 0.10. -/
theorem convergence_example_and_breakdown :
    (calculate_convergence_score
      { tech_pred := some "UP", tft_pred := some "UP", rl_action := some 1,
        sentiment_score := some 0.8, pcr := some 0.7 }).1 ≥ 0.97
    ∧ ∀ s : Signals,
        (calculate_convergence_score s).1 =
          weights_technical * (calculate_convergence_score s).2.technical
          + weights_tft * (calculate_convergence_score s).2.tft
          + weights_rl * (calculate_convergence_score s).2.rl
          + weights_sentiment * (calculate_convergence_score s).2.sentiment
          + weights_options * (calculate_convergence_score s).2.options := by
  constructor
  · norm_num [calculate_convergence_score, conv_technical, conv_tft, conv_rl, conv_options,
      weights_technical, weights_tft, weights_rl, weights_sentiment, weights_options]
  · intro s
    simp only [calculate_convergence_score]
    rw [conv_technical_eq, conv_tft_eq, conv_rl_eq, conv_options_eq]
    ring

/- ### Claim C7 -/

/-- C7: the structural safety gate denies a BUY exactly when the price is
above call_wall - 30 and a SELL exactly when below put_wall + 30, always
allows without wall data, denies a BUY at call_wall - 10 and allows one at
call_wall - 100. -/
theorem structural_safety_gate (a : GexAnalysis) (spot : ℚ) :
    ((get_safety_gate (some a) "BUY" spot).1 = false ↔ spot > a.call_wall - 30)
    ∧ ((get_safety_gate (some a) "SELL" spot).1 = false ↔ spot < a.put_wall + 30)
    ∧ (∀ (signal : String) (sp : ℚ), (get_safety_gate none signal sp).1 = true)
    ∧ (get_safety_gate (some a) "BUY" (a.call_wall - 10)).1 = false
    ∧ (get_safety_gate (some a) "BUY" (a.call_wall - 100)).1 = true := by
  refine ⟨?_, ?_, fun signal sp => rfl, ?_, ?_⟩
  · simp only [get_safety_gate, eq_self_iff_true, true_and]
    have hne : ¬ (("BUY" : String) = "SELL") := by decide
    simp only [hne, false_and, if_false]
    split_ifs with h <;> simp [h]
  · simp only [get_safety_gate]
    have hne : ¬ (("SELL" : String) = "BUY") := by decide
    simp only [hne, false_and, if_false, eq_self_iff_true, true_and]
    split_ifs with h <;> simp [h]
  · simp only [get_safety_gate]
    rw [if_pos (by exact ⟨by trivial, by linarith⟩)]
  · simp only [get_safety_gate]
    rw [if_neg (by
      rintro ⟨-, h⟩
      linarith)]
    rw [if_neg (by rintro ⟨h, -⟩; exact absurd h (by decide))]

/- ### Claim C10 -/

/-- C10: the convergence score magnitude is at most 0.90 + 0.15 times the
sentiment magnitude, and at most 1.0 whenever the sentiment input stays in
the interval from -1 to 1. -/
theorem convergence_score_bound (s : Signals) :
    |(calculate_convergence_score s).1| ≤ 0.90 + 0.15 * |s.sentiment_score.getD 0|
    ∧ (|s.sentiment_score.getD 0| ≤ 1 → |(calculate_convergence_score s).1| ≤ 1) := by
  have key := conv_score_abs_le s
  constructor
  · have : (0:ℚ) ≤ |s.sentiment_score.getD 0| := abs_nonneg _
    linarith
  · intro h
    linarith

/-- C10, witness: at the signal set with sentiment 0.8 the bound applies and
the score magnitude is at most 1. -/
theorem convergence_score_bound_witness :
    |(calculate_convergence_score
      { tech_pred := some "UP", tft_pred := some "UP", rl_action := some 1,
        sentiment_score := some 0.8, pcr := some 0.7 }).1| ≤ 1 :=
  (convergence_score_bound _).2 (by norm_num [abs_of_nonneg])

/- ### List lemmas for the target ladder -/

lemma py_sorted_dedup_mem (xs : List ℚ) (rev : Bool) (x : ℚ) :
    x ∈ py_sorted_dedup xs rev ↔ x ∈ xs := by
  unfold py_sorted_dedup
  cases rev <;> simp [List.mem_insertionSort, List.mem_dedup]

lemma py_sorted_dedup_nodup (xs : List ℚ) (rev : Bool) :
    (py_sorted_dedup xs rev).Nodup := by
  unfold py_sorted_dedup
  have h : (List.insertionSort (· ≤ ·) xs.dedup).Nodup :=
    (List.perm_insertionSort _ _).symm.nodup (List.nodup_dedup xs)
  cases rev
  · simpa using h
  · simpa using List.nodup_reverse.mpr h

lemma py_sorted_dedup_sorted_asc (xs : List ℚ) :
    (py_sorted_dedup xs false).Sorted (· ≤ ·) := by
  unfold py_sorted_dedup
  simpa using List.sorted_insertionSort _ xs.dedup

lemma py_sorted_dedup_sorted_desc (xs : List ℚ) :
    (py_sorted_dedup xs true).Sorted (· ≥ ·) := by
  have h : py_sorted_dedup xs true = (List.insertionSort (· ≤ ·) xs.dedup).reverse := rfl
  rw [h]
  show List.Pairwise (· ≥ ·) (List.insertionSort (· ≤ ·) xs.dedup).reverse
  rw [List.pairwise_reverse]
  exact List.Pairwise.imp (fun hab => hab)
    (List.sorted_insertionSort (fun a b => a ≤ b) xs.dedup)

lemma py_sorted_dedup_ne_nil (xs : List ℚ) (rev : Bool) (h : xs ≠ []) :
    py_sorted_dedup xs rev ≠ [] := by
  unfold py_sorted_dedup
  have hd : xs.dedup ≠ [] := by
    intro hcon
    rcases List.exists_mem_of_ne_nil xs h with ⟨a, ha⟩
    have hmem : a ∈ xs.dedup := List.mem_dedup.mpr ha
    rw [hcon] at hmem
    exact absurd hmem (List.not_mem_nil a)
  have hs : List.insertionSort (· ≤ ·) xs.dedup ≠ [] := by
    intro hcon
    have hlen := (List.perm_insertionSort (· ≤ ·) xs.dedup).length_eq
    rw [hcon] at hlen
    exact hd (List.length_eq_zero.mp hlen.symm)
  cases rev
  · simpa using hs
  · simp only [if_pos rfl]
    intro hcon
    exact hs (by simpa using hcon)

lemma buy_ne_sell : ¬ (("BUY" : String) = "SELL") := by decide

lemma sell_ne_buy : ¬ (("SELL" : String) = "BUY") := by decide

/-- The target list always holds at least the two base ATR targets. -/
lemma calculate_targets_ne_nil (price : ℚ) (side : String) (atr : ℚ)
    (pivot_levels : Option PivotLevels) (regime : String) (gex_data : Option GexData) :
    calculate_targets price side atr pivot_levels regime gex_data ≠ [] := by
  simp only [calculate_targets]
  apply py_sorted_dedup_ne_nil
  intro hcon
  simp only [List.append_eq_nil] at hcon
  rcases hcon with ⟨⟨h1, -⟩, -⟩
  revert h1
  split_ifs <;> simp

/-- With no pivot levels and no wall data the target list is exactly the two
base ATR multiples. -/
lemma calculate_targets_none_mem (price atr : ℚ) (side regime : String) (x : ℚ) :
    x ∈ calculate_targets price side atr none regime none ↔
      (x = (if regime = "TRENDING_INTRADAY" then
              (if side = "BUY" then price + atr * 3.0 else price - atr * 3.0)
            else (if side = "BUY" then price + atr * 1.5 else price - atr * 1.5))
       ∨ x = (if regime = "TRENDING_INTRADAY" then
              (if side = "BUY" then price + atr * 5.0 else price - atr * 5.0)
            else (if side = "BUY" then price + atr * 2.5 else price - atr * 2.5))) := by
  simp only [calculate_targets, py_sorted_dedup_mem]
  split_ifs <;> simp

/- ### Claim C3 -/

/-- C3, counterexample: price 100, atr 100, side BUY, call wall 150 above the
entry price.  The returned list still holds the base target 250, which is not
clipped to call_wall - 10 = 140: the wall target is appended as an extra
exit, the others are left as they are. -/
theorem targets_wall_clip_counterexample :
    (250 : ℚ) ∈ calculate_targets 100 "BUY" 100 none "NOMINAL" (some ⟨150, 0, 1⟩)
    ∧ (100 : ℚ) < 150
    ∧ ¬ ((250 : ℚ) ≤ 150 - 10) := by
  refine ⟨?_, by norm_num, by norm_num⟩
  norm_num [calculate_targets, py_sorted_dedup, List.dedup, List.pwFilter,
    List.insertionSort, List.orderedInsert]
  rw [if_neg buy_ne_sell]
  norm_num

/-- C3, amended: when wall data with an adverse wall beyond the entry price is
supplied, the returned list contains the additional target 10 units short of
that wall (call_wall - 10 for a BUY with call_wall above price; put_wall + 10
for a SELL with 0 < put_wall < price); the other targets are not clipped to
it. -/
theorem targets_wall_append_amended (price atr : ℚ) (pivot_levels : Option PivotLevels)
    (regime : String) (g : GexData) :
    (g.call_wall > price →
      g.call_wall - 10 ∈ calculate_targets price "BUY" atr pivot_levels regime (some g))
    ∧ (0 < g.put_wall → g.put_wall < price →
      g.put_wall + 10 ∈ calculate_targets price "SELL" atr pivot_levels regime (some g)) := by
  constructor
  · intro h
    simp only [calculate_targets, py_sorted_dedup_mem]
    simp [h]
  · intro h1 h2
    simp only [calculate_targets, py_sorted_dedup_mem]
    simp [h1, h2, sell_ne_buy]

/-- C3, witness for the amended theorem at the counterexample input: the wall
target 140 = 150 - 10 is in the list. -/
theorem targets_wall_append_amended_witness :
    (140 : ℚ) ∈ calculate_targets 100 "BUY" 100 none "NOMINAL" (some ⟨150, 0, 1⟩) := by
  have h140 : (140 : ℚ) = (GexData.mk 150 0 1).call_wall - 10 := by norm_num
  rw [h140]
  exact (targets_wall_append_amended 100 100 none "NOMINAL" ⟨150, 0, 1⟩).1 (by norm_num)

/- ### Claim C9 -/

/-- C9: with no pivot levels and no wall data, the trending regime yields
exactly the targets price plus/minus ATR x 3.0 and ATR x 5.0, every other
regime exactly price plus/minus ATR x 1.5 and ATR x 2.5 (plus for BUY, minus
for SELL); the concrete trending BUY example (atr 100, price 50000) returns
[50300, 50500]; the returned list is always duplicate-free, ascending for a
non-SELL side and descending for SELL.  The trending regime label of the
source is TRENDING_INTRADAY. -/
theorem exit_targets_spec (price atr : ℚ) (regime : String) :
    calculate_targets 50000 "BUY" 100 none "TRENDING_INTRADAY" none = [50300, 50500]
    ∧ (regime = "TRENDING_INTRADAY" →
        (∀ x : ℚ, x ∈ calculate_targets price "BUY" atr none regime none ↔
          (x = price + atr * 3.0 ∨ x = price + atr * 5.0))
        ∧ (∀ x : ℚ, x ∈ calculate_targets price "SELL" atr none regime none ↔
          (x = price - atr * 3.0 ∨ x = price - atr * 5.0)))
    ∧ (regime ≠ "TRENDING_INTRADAY" →
        (∀ x : ℚ, x ∈ calculate_targets price "BUY" atr none regime none ↔
          (x = price + atr * 1.5 ∨ x = price + atr * 2.5))
        ∧ (∀ x : ℚ, x ∈ calculate_targets price "SELL" atr none regime none ↔
          (x = price - atr * 1.5 ∨ x = price - atr * 2.5)))
    ∧ (∀ side : String, (calculate_targets price side atr none regime none).Nodup)
    ∧ (∀ side : String, side ≠ "SELL" →
        (calculate_targets price side atr none regime none).Sorted (· ≤ ·))
    ∧ (calculate_targets price "SELL" atr none regime none).Sorted (· ≥ ·) := by
  refine ⟨?_, ?_, ?_, ?_, ?_, ?_⟩
  · norm_num [calculate_targets, py_sorted_dedup, List.dedup, List.pwFilter,
      List.insertionSort, List.orderedInsert]
    all_goals decide
  · intro hreg
    constructor <;> intro x <;> simp [calculate_targets_none_mem, hreg, sell_ne_buy]
  · intro hreg
    constructor <;> intro x <;> simp [calculate_targets_none_mem, hreg, sell_ne_buy]
  · intro side
    simp only [calculate_targets]
    exact py_sorted_dedup_nodup _ _
  · intro side hside
    simp only [calculate_targets]
    rw [show decide (side = "SELL") = false from decide_eq_false hside]
    exact py_sorted_dedup_sorted_asc _
  · simp only [calculate_targets]
    exact py_sorted_dedup_sorted_desc _

/-- C9, witness: the trending clause applied at the concrete example, and the
ascending-sorted clause at side BUY. -/
theorem exit_targets_spec_witness :
    (50300 : ℚ) ∈ calculate_targets 50000 "BUY" 100 none "TRENDING_INTRADAY" none
    ∧ (calculate_targets 50000 "BUY" 100 none "TRENDING_INTRADAY" none).Sorted (· ≤ ·) :=
  ⟨(((exit_targets_spec 50000 100 "TRENDING_INTRADAY").2.1 rfl).1 50300).mpr
      (Or.inl (by norm_num)),
   (exit_targets_spec 50000 100 "TRENDING_INTRADAY").2.2.2.2.1 "BUY" (by decide)⟩

/- ### Claim C6 -/

/-- The logistic curve is monotone. -/
lemma logistic_mono {x y : ℝ} (h : x ≤ y) : logistic x ≤ logistic y := by
  unfold logistic
  have hx : (0:ℝ) < 1 + Real.exp (-x) := by positivity
  have hy : (0:ℝ) < 1 + Real.exp (-y) := by positivity
  have hexp : Real.exp (-y) ≤ Real.exp (-x) := Real.exp_le_exp.mpr (by linarith)
  rw [div_le_div_iff₀ hx hy]
  linarith

/-- The pre-sigmoid score is confidence/100 plus adjustments that do not
depend on the confidence. -/
lemma vet_score_mono (signal : String) {c1 c2 : ℚ} (tech_ctx : TechCtx)
    (component_alpha : Option ℚ) (gex_data : Option GexData) (h : c1 ≤ c2) :
    vet_score signal c1 tech_ctx component_alpha gex_data ≤
      vet_score signal c2 tech_ctx component_alpha gex_data := by
  simp only [vet_score]
  have : c1 / 100 ≤ c2 / 100 := by linarith
  gcongr

/-- C6: for every fixed raw signal, technical context, leadership score and
wall data, the success probability of MetaLabeler.vet_signal is monotonically
non-decreasing in the base confidence (the vetting threshold plays no role in
the probability itself). -/
theorem meta_prob_monotone (signal : String) (c1 c2 : ℚ) (tech_ctx : TechCtx)
    (component_alpha : Option ℚ) (gex_data : Option GexData) (h : c1 ≤ c2) :
    vet_signal_prob signal c1 tech_ctx component_alpha gex_data ≤
      vet_signal_prob signal c2 tech_ctx component_alpha gex_data := by
  unfold vet_signal_prob
  split_ifs with hs
  · exact le_rfl
  · apply logistic_mono
    have hq : vet_score signal c1 tech_ctx component_alpha gex_data ≤
        vet_score signal c2 tech_ctx component_alpha gex_data :=
      vet_score_mono signal tech_ctx component_alpha gex_data h
    have hr : ((vet_score signal c1 tech_ctx component_alpha gex_data : ℚ) : ℝ) ≤
        ((vet_score signal c2 tech_ctx component_alpha gex_data : ℚ) : ℝ) := by
      exact_mod_cast hq
    linarith

/-- C6, witness: at signal BUY with confidences 30 and 50 and empty context
the theorem applies. -/
theorem meta_prob_monotone_witness :
    vet_signal_prob "BUY" 30 ⟨none, none, none, none, none⟩ none none ≤
      vet_signal_prob "BUY" 50 ⟨none, none, none, none, none⟩ none none :=
  meta_prob_monotone "BUY" 30 50 ⟨none, none, none, none, none⟩ none none (by norm_num)

/- ### Claim C8 -/

/-- C8: for every meta-labeler, every GEX-engine state and every aggregator
state, if the produced action is not HOLD then the trade recommendation
carries an exit plan with an initial stop-loss and a non-empty target list;
an absent exit plan can occur only with action HOLD. -/
theorem nonhold_has_exit_plan {π : Type} (meta_labeler : Option (MetaFn π))
    (gex_engine : Option (Option GexAnalysis)) (state : AggState)
    (h : (aggregator meta_labeler gex_engine state).trade_recommendation.action ≠ "HOLD") :
    ∃ p : ExitPlan,
      (aggregator meta_labeler gex_engine state).trade_recommendation.exit_plan = some p
      ∧ p.targets ≠ [] := by
  have haction : (aggregator meta_labeler gex_engine state).trade_recommendation.action =
      (aggregator_decision meta_labeler gex_engine state).1 := rfl
  rw [haction] at h
  have hplan : (aggregator meta_labeler gex_engine state).trade_recommendation.exit_plan =
      (if (aggregator_decision meta_labeler gex_engine state).1 ≠ "HOLD" then
        some { initial_sl := calculate_tsl (state.technical_context.ltp.getD 0)
                 (state.technical_context.ltp.getD 0)
                 (aggregator_decision meta_labeler gex_engine state).1
                 (state.technical_context.atr.getD (state.technical_context.ltp.getD 0 * 0.01))
                 (state.regime.getD "NOMINAL")
               trailing_sl_active := true
               targets := calculate_targets (state.technical_context.ltp.getD 0)
                 (aggregator_decision meta_labeler gex_engine state).1
                 (state.technical_context.atr.getD (state.technical_context.ltp.getD 0 * 0.01))
                 none (state.regime.getD "NOMINAL") state.gex_data }
      else none) := rfl
  rw [hplan, if_pos h]
  refine ⟨_, rfl, ?_⟩
  show calculate_targets (state.technical_context.ltp.getD 0)
      (aggregator_decision meta_labeler gex_engine state).1
      (state.technical_context.atr.getD (state.technical_context.ltp.getD 0 * 0.01)) none
      (state.regime.getD "NOMINAL") state.gex_data ≠ []
  exact calculate_targets_ne_nil _ _ _ _ _ _

/-- C8, witness: a concrete run (all signals bullish, trending regime, risk
approved, no meta-labeler and no GEX engine loaded) produces a BUY with a
non-empty exit plan. -/
theorem nonhold_has_exit_plan_witness :
    ∃ p : ExitPlan,
      (@aggregator Unit none none
        { symbol := "NIFTY", ai_prediction := "UP", risk_approval := true,
          technical_context := ⟨some "TRENDING_INTRADAY", none, some 50000, some 100, none⟩,
          greedy := none, regime := some "TRENDING_INTRADAY", tft_prediction := some "UP",
          rl_action := some 1, sentiment_score := some 0.8, pcr := some 0.7,
          confidence := some 80, gex_data := none }).trade_recommendation.exit_plan = some p
      ∧ p.targets ≠ [] := by
  apply nonhold_has_exit_plan
  norm_num [aggregator, aggregator_decision, agg_signals, calculate_convergence_score,
    conv_technical, conv_tft, conv_rl, conv_options, weights_technical, weights_tft,
    weights_rl, weights_sentiment, weights_options, req_score_of, get_safety_gate,
    abs_of_nonneg]
  all_goals decide

/- ### Watchdog lemmas -/

lemma emergency_stop_heartbeats (st : WatchdogState) (u : String) :
    (emergency_stop st u).heartbeats = st.heartbeats := by
  unfold emergency_stop
  cases hset : st.settings u
  · rfl
  · dsimp only
    split_ifs <;> rfl

lemma heartbeat_stale_congr {st1 st2 : WatchdogState} (now : Int) (u : String)
    (h : st1.heartbeats = st2.heartbeats) :
    heartbeat_stale st1 now u = heartbeat_stale st2 now u := by
  unfold heartbeat_stale
  rw [h]

lemma emergency_stop_settings_other (st : WatchdogState) {u v : String} (hne : v ≠ u) :
    (emergency_stop st u).settings v = st.settings v := by
  unfold emergency_stop
  cases hset : st.settings u
  · rfl
  · dsimp only
    split_ifs with hm
    · simp [hne]
    · rfl

lemma emergency_stop_mem_other (st : WatchdogState) {u v : String} (hne : v ≠ u) :
    v ∈ (emergency_stop st u).active_auto_users ↔ v ∈ st.active_auto_users := by
  unfold emergency_stop
  cases hset : st.settings u
  · exact Iff.rfl
  · dsimp only
    split_ifs with hm
    · simp [List.mem_filter, hne]
    · exact Iff.rfl

lemma emergency_stop_noop_none {st : WatchdogState} {u : String}
    (h : st.settings u = none) : emergency_stop st u = st := by
  unfold emergency_stop
  rw [h]

lemma emergency_stop_noop_mode {st : WatchdogState} {u : String} {s : UserSettings}
    (h : st.settings u = some s) (hm : s.trading_mode ≠ "AUTO") :
    emergency_stop st u = st := by
  unfold emergency_stop
  rw [h]
  dsimp only
  rw [if_neg hm]

lemma emergency_stop_acts {st : WatchdogState} {u : String} {s : UserSettings}
    (h : st.settings u = some s) (hm : s.trading_mode = "AUTO") :
    (emergency_stop st u).settings u = some { s with trading_mode := "MANUAL" }
    ∧ u ∉ (emergency_stop st u).active_auto_users := by
  unfold emergency_stop
  rw [h]
  dsimp only
  rw [if_pos hm]
  constructor
  · simp
  · simp [List.mem_filter]

/-- Once a user is out of the active set with a non-AUTO settings record, the
rest of the watchdog sweep leaves both facts intact. -/
lemma go_preserves_removed (now : Int) (u : String) (s : UserSettings)
    (hmode : s.trading_mode ≠ "AUTO") :
    ∀ (l : List String) (st : WatchdogState),
      st.settings u = some s → u ∉ st.active_auto_users →
      (check_watchdog_go now st l).settings u = some s
      ∧ u ∉ (check_watchdog_go now st l).active_auto_users := by
  intro l
  induction l with
  | nil => intro st hset hnot; exact ⟨hset, hnot⟩
  | cons v rest ih =>
    intro st hset hnot
    simp only [check_watchdog_go]
    by_cases hvu : v = u
    · subst hvu
      split_ifs with hstale
      · rw [emergency_stop_noop_mode hset hmode]
        exact ih st hset hnot
      · exact ih st hset hnot
    · have hne : u ≠ v := fun hh => hvu hh.symm
      set st2 := if heartbeat_stale st now v then emergency_stop st v else st with hst2
      have hset2 : st2.settings u = some s := by
        rw [hst2]
        split_ifs
        · rw [emergency_stop_settings_other st hne]; exact hset
        · exact hset
      have hnot2 : u ∉ st2.active_auto_users := by
        rw [hst2]
        split_ifs with hs
        · intro hmem
          exact hnot ((emergency_stop_mem_other st hne).mp hmem)
        · exact hnot
      exact ih st2 hset2 hnot2

/-- A user the sweep never acts on (fresh heartbeat, or no settings record,
or a non-AUTO mode) keeps their settings and set membership. -/
lemma go_untouched (now : Int) (u : String) :
    ∀ (l : List String) (st : WatchdogState),
      (heartbeat_stale st now u = false
        ∨ st.settings u = none
        ∨ (∃ s, st.settings u = some s ∧ s.trading_mode ≠ "AUTO")) →
      (check_watchdog_go now st l).settings u = st.settings u
      ∧ (u ∈ (check_watchdog_go now st l).active_auto_users ↔ u ∈ st.active_auto_users) := by
  intro l
  induction l with
  | nil => intro st h; exact ⟨rfl, Iff.rfl⟩
  | cons v rest ih =>
    intro st h
    simp only [check_watchdog_go]
    by_cases hvu : v = u
    · subst hvu
      have hnoop : (if heartbeat_stale st now v then emergency_stop st v else st) = st := by
        rcases h with hf | hn | ⟨s, hs, hm⟩
        · rw [hf]
          simp
        · split_ifs
          · exact emergency_stop_noop_none hn
          · rfl
        · split_ifs
          · exact emergency_stop_noop_mode hs hm
          · rfl
      rw [hnoop]
      exact ih st h
    · have hne : u ≠ v := fun hh => hvu hh.symm
      set st2 := if heartbeat_stale st now v then emergency_stop st v else st with hst2
      have hs2 : st2.settings u = st.settings u := by
        rw [hst2]
        split_ifs
        · exact emergency_stop_settings_other st hne
        · rfl
      have hh2 : st2.heartbeats = st.heartbeats := by
        rw [hst2]
        split_ifs
        · exact emergency_stop_heartbeats st v
        · rfl
      have h2 : heartbeat_stale st2 now u = false
          ∨ st2.settings u = none
          ∨ (∃ s, st2.settings u = some s ∧ s.trading_mode ≠ "AUTO") := by
        rw [heartbeat_stale_congr now u hh2, hs2]
        exact h
      obtain ⟨ih1, ih2⟩ := ih st2 h2
      refine ⟨ih1.trans hs2, ih2.trans ?_⟩
      rw [hst2]
      split_ifs
      · exact emergency_stop_mem_other st hne
      · exact Iff.rfl

/-- A stale user in the sweep list whose settings record is in AUTO mode is
reverted to MANUAL and removed from the active set. -/
lemma go_emergency (now : Int) (u : String) (s : UserSettings)
    (hmode : s.trading_mode = "AUTO") :
    ∀ (l : List String) (st : WatchdogState),
      u ∈ l → heartbeat_stale st now u = true → st.settings u = some s →
      (check_watchdog_go now st l).settings u = some { s with trading_mode := "MANUAL" }
      ∧ u ∉ (check_watchdog_go now st l).active_auto_users := by
  intro l
  induction l with
  | nil => intro st hmem; exact absurd hmem (List.not_mem_nil u)
  | cons v rest ih =>
    intro st hmem hstale hset
    simp only [check_watchdog_go]
    by_cases hvu : v = u
    · rw [hvu, if_pos hstale]
      obtain ⟨hs1, hm1⟩ := emergency_stop_acts hset hmode
      exact go_preserves_removed now u { s with trading_mode := "MANUAL" }
        (by show ("MANUAL" : String) ≠ "AUTO"; decide) rest _ hs1 hm1
    · have hne : u ≠ v := fun hh => hvu hh.symm
      have hmem2 : u ∈ rest := by
        rcases List.mem_cons.mp hmem with heq | hm
        · exact absurd heq.symm hvu
        · exact hm
      set st2 := if heartbeat_stale st now v then emergency_stop st v else st with hst2
      have hset2 : st2.settings u = some s := by
        rw [hst2]
        split_ifs
        · rw [emergency_stop_settings_other st hne]; exact hset
        · exact hset
      have hh2 : st2.heartbeats = st.heartbeats := by
        rw [hst2]
        split_ifs
        · exact emergency_stop_heartbeats st v
        · rfl
      have hstale2 : heartbeat_stale st2 now u = true := by
        rw [heartbeat_stale_congr now u hh2]
        exact hstale
      exact ih st2 hmem2 hstale2 hset2

/- ### Claim C2 -/

/-- C2, counterexample: the user u1 is in the active-autonomous set, has no
recorded heartbeat (hence is stale) and has no stored settings record; after
check_watchdog the user is STILL a member of the set, because _emergency_stop
only removes a user whose settings record exists with mode AUTO.  The claim
says the user would no longer be a member and would hold mode MANUAL. -/
theorem watchdog_counterexample :
    heartbeat_stale ⟨fun _ => none, ["u1"], fun _ => none⟩ 1000 "u1" = true
    ∧ (⟨fun _ => none, ["u1"], fun _ => none⟩ : WatchdogState).settings "u1" = none
    ∧ (check_watchdog ⟨fun _ => none, ["u1"], fun _ => none⟩ 1000).active_auto_users
        = ["u1"] :=
  ⟨rfl, rfl, rfl⟩

/-- C2, amended: for every principal in the active-autonomous set when
check_watchdog runs: if the heartbeat is absent or older than the timeout AND
the stored settings exist with trading mode AUTO, the principal is removed
from the set and the stored mode becomes MANUAL; if the heartbeat is stale
but the settings record is absent or its mode is not AUTO, membership and
settings are unchanged; if the heartbeat is within the timeout, membership
and settings are unchanged. -/
theorem watchdog_revert_amended (st : WatchdogState) (now : Int) (u : String)
    (hu : u ∈ st.active_auto_users) :
    (∀ s : UserSettings, heartbeat_stale st now u = true → st.settings u = some s →
        s.trading_mode = "AUTO" →
        (check_watchdog st now).settings u = some { s with trading_mode := "MANUAL" }
        ∧ u ∉ (check_watchdog st now).active_auto_users)
    ∧ (heartbeat_stale st now u = true →
        (st.settings u = none ∨ (∃ s, st.settings u = some s ∧ s.trading_mode ≠ "AUTO")) →
        (check_watchdog st now).settings u = st.settings u
        ∧ u ∈ (check_watchdog st now).active_auto_users)
    ∧ (heartbeat_stale st now u = false →
        (check_watchdog st now).settings u = st.settings u
        ∧ u ∈ (check_watchdog st now).active_auto_users) := by
  refine ⟨?_, ?_, ?_⟩
  · intro s hstale hset hmode
    exact go_emergency now u s hmode st.active_auto_users st hu hstale hset
  · intro hstale hsettings
    obtain ⟨h1, h2⟩ := go_untouched now u st.active_auto_users st (Or.inr hsettings)
    exact ⟨h1, h2.mpr hu⟩
  · intro hfresh
    obtain ⟨h1, h2⟩ := go_untouched now u st.active_auto_users st (Or.inl hfresh)
    exact ⟨h1, h2.mpr hu⟩

/-- C2, witness for the amended theorem: a stale user with an AUTO settings
record is reverted and removed. -/
theorem watchdog_revert_amended_witness :
    (check_watchdog
        ⟨fun v => if v = "u1" then some 0 else none, ["u1"],
         fun v => if v = "u1" then some ⟨"AUTO", "r"⟩ else none⟩ 100).settings "u1"
      = some ⟨"MANUAL", "r"⟩
    ∧ "u1" ∉ (check_watchdog
        ⟨fun v => if v = "u1" then some 0 else none, ["u1"],
         fun v => if v = "u1" then some ⟨"AUTO", "r"⟩ else none⟩ 100).active_auto_users :=
  (watchdog_revert_amended
    ⟨fun v => if v = "u1" then some 0 else none, ["u1"],
     fun v => if v = "u1" then some ⟨"AUTO", "r"⟩ else none⟩ 100 "u1"
    (by simp)).1 ⟨"AUTO", "r"⟩ rfl rfl rfl

end Tradeverse
